import Mathlib

/-!
Shallow embedding of the platform-integration bridge of the `game-play`
repository, together with proofs about its specified behavior.

Conventions used throughout:
- JavaScript strings are Lean `String`s; the character-level operations the
  source performs through regexes (`replace(/^\/+/,'')`, `/\.(mp3|ogg|wav)$/i`,
  `/^https?:\/\//i`) are implemented on the underlying `List Char` so that
  they are executable and decidable.
- JavaScript numbers are `Int` (pixel coordinates, indices) or `ℚ` (volumes,
  durations); machine floating point is not needed for any of the properties
  proved here because all computations stay exact on the values involved.
- `Map` objects are association lists keyed by `String`.
- Asynchronous methods are modelled as pure functions from their inputs and
  the relevant slice of mutable state to results plus effect logs (transport
  calls, sent responses, log lines, error-counter increments).
-/

/-! ## String helpers (executable counterparts of the JS string operations) -/

/-- `p` is a prefix of `s` (JS `String.prototype.startsWith`). -/
def strStartsWith (s p : String) : Bool :=
  p.data.isPrefixOf s.data

/-- Lower-case a single ASCII character (used for the `i` regex flag). -/
def lowerChar (c : Char) : Char :=
  if 'A' ≤ c ∧ c ≤ 'Z' then Char.ofNat (c.toNat + 32) else c

/-- ASCII-lower-case a string. -/
def lowerStr (s : String) : String :=
  String.mk (s.data.map lowerChar)

/-- Drop every leading `'/'` (JS `id.replace(/^\/+/, '')`). -/
def stripLeadingSlashes (s : String) : String :=
  String.mk (s.data.dropWhile (fun c => c = '/'))

/-- Drop a single leading `'/'` if present (JS `s.replace(/^\//, '')`). -/
def stripOneLeadingSlash (s : String) : String :=
  match s.data with
  | '/' :: rest => String.mk rest
  | l => String.mk l

/-- `p` is a suffix of `s`. -/
def strEndsWith (s p : String) : Bool :=
  p.data.reverse.isPrefixOf s.data.reverse

/-- Case-insensitive test for an absolute `http(s)://` URL
(JS `/^https?:\/\//i.test(s)`). -/
def isHttpUrl (s : String) : Bool :=
  strStartsWith (lowerStr s) "http://" || strStartsWith (lowerStr s) "https://"

/-- Strip a trailing `.mp3`/`.ogg`/`.wav` extension, case-insensitively
(JS `id.replace(/\.(mp3|ogg|wav)$/i, '')`). -/
def stripAudioExt (s : String) : String :=
  let l := lowerStr s
  if strEndsWith l ".mp3" || strEndsWith l ".ogg" || strEndsWith l ".wav" then
    String.mk (s.data.take (s.data.length - 4))
  else s

/-! ## Content Registry Resolver

From `CritterSelection.vue` (`generateFramePositions`, mirrored by
`generateGridCoordinates` in `tests/grid-coordinates.test.js`) and the
critter-id hash shared by `GamePage.vue` and the tests. -/

/-- The `layout` variant of a `FrameLayout`:
`'Horizontal' | 'Vertical' | { Grid: { cols, rows } }`. -/
inductive Layout where
  | Horizontal : Layout
  | Vertical : Layout
  | Grid (cols rows : Nat) : Layout
deriving DecidableEq, Repr

/-- The fields of `FrameLayout` consulted by `generateFramePositions`
(`frame_count` and `image_size` are not read by it). -/
structure FrameLayout where
  frame_size : Int × Int
  layout : Layout
deriving DecidableEq, Repr

/-- All grid cell origins in row-major order: the nested
`for (row) for (col) allFrames.push({x: col*frameWidth, y: row*frameHeight})`
loops of `generateFramePositions`. -/
def gridAllFrames (cols rows : Nat) (frameWidth frameHeight : Int) : List (Int × Int) :=
  (List.range rows).flatMap (fun (row : Nat) =>
    (List.range cols).map (fun (col : Nat) =>
      ((col : Int) * frameWidth, (row : Int) * frameHeight)))

/-- `generateFramePositions(frameLayout, animationFrames)`: resolves each
animation frame index to a pixel-space top-left origin.  For `Grid`, an index
is looked up in the row-major cell list, with `(0, 0)` as the fallback for an
out-of-range index; `Horizontal`/`Vertical` multiply the index by the frame
size directly. -/
def generateFramePositions (frameLayout : FrameLayout) (animationFrames : List Int) :
    List (Int × Int) :=
  let frameWidth := frameLayout.frame_size.1
  let frameHeight := frameLayout.frame_size.2
  match frameLayout.layout with
  | Layout.Grid cols rows =>
    let allFrames := gridAllFrames cols rows frameWidth frameHeight
    animationFrames.map (fun frameIndex =>
      if frameIndex < (allFrames.length : Int) ∧ 0 ≤ frameIndex then
        allFrames.getD frameIndex.toNat (0, 0)
      else
        (0, 0))
  | Layout.Horizontal =>
    animationFrames.map (fun frameIndex => (frameIndex * frameWidth, 0))
  | Layout.Vertical =>
    animationFrames.map (fun frameIndex => (0, frameIndex * frameHeight))

/-- `hashCritterId(critterId)`: sum of the character codes of the id,
modulo 1000 (`critterId.split('').reduce((hash, c) => hash + c.charCodeAt(0), 0) % 1000`;
the ids involved are ASCII, where `charCodeAt` agrees with the code point). -/
def hashCritterId (critterId : String) : Nat :=
  (critterId.data.foldl (fun hash char => hash + char.toNat) 0) % 1000

/-! ### Lemmas about the grid enumeration -/

/-- The row-major cell list is the range `0 .. rows*cols` mapped through the
`(index mod cols, index div cols)` coordinate formula. -/
theorem gridAllFrames_eq_range_map (cols rows : Nat) (w h : Int) :
    gridAllFrames cols rows w h =
      (List.range (rows * cols)).map
        (fun n => (((n % cols : Nat) : Int) * w, ((n / cols : Nat) : Int) * h)) := by
  induction rows with
  | zero => simp [gridAllFrames]
  | succ r ih =>
    have h1 : gridAllFrames cols (r + 1) w h =
        gridAllFrames cols r w h ++
          (List.range cols).map (fun (col : Nat) => ((col : Int) * w, (r : Int) * h)) := by
      unfold gridAllFrames
      rw [List.range_succ, List.flatMap_append]
      simp only [List.flatMap_cons, List.flatMap_nil, List.append_nil]
    rw [h1, ih, Nat.succ_mul, List.range_add, List.map_append, List.map_map]
    congr 1
    apply List.map_congr_left
    intro c hc
    have hclt : c < cols := List.mem_range.mp hc
    have hpos : 0 < cols := Nat.lt_of_le_of_lt (Nat.zero_le c) hclt
    have hmod : (r * cols + c) % cols = c := by
      rw [Nat.mul_comm r cols, Nat.mul_add_mod, Nat.mod_eq_of_lt hclt]
    have hdiv : (r * cols + c) / cols = r := by
      rw [Nat.mul_comm r cols, Nat.mul_add_div hpos, Nat.div_eq_of_lt hclt, Nat.add_zero]
    simp [Function.comp, hmod, hdiv]

/-- The row-major cell list has exactly `rows * cols` entries. -/
theorem gridAllFrames_length (cols rows : Nat) (w h : Int) :
    (gridAllFrames cols rows w h).length = rows * cols := by
  rw [gridAllFrames_eq_range_map]
  simp

/-! ### Claims C3, C4, C5 -/

/-- C3: for a `Grid(cols, rows)` layout with frame size `(w, h)`, every
in-range index `i < cols * rows` occurring anywhere in the animation-frame
list resolves to the `i`-th entry of the row-major enumeration of cell
origins, i.e. to `((i mod cols) * w, (i div cols) * h)`. -/
theorem generateFramePositions_grid_rowMajor (cols rows : Nat) (w h : Int)
    (frames : List Int) (j i : Nat)
    (hj : frames[j]? = some (i : Int)) (hi : i < cols * rows) :
    (generateFramePositions ⟨(w, h), Layout.Grid cols rows⟩ frames)[j]? =
      some (((i % cols : Nat) : Int) * w, ((i / cols : Nat) : Int) * h) := by
  have hi' : i < rows * cols := by rwa [Nat.mul_comm] at hi
  simp only [generateFramePositions]
  rw [List.getElem?_map, hj, Option.map_some']
  have hcond : ((i : Int) < ((gridAllFrames cols rows w h).length : Int) ∧ 0 ≤ (i : Int)) := by
    constructor
    · rw [gridAllFrames_length]
      exact_mod_cast hi'
    · exact Int.natCast_nonneg i
  rw [if_pos hcond, gridAllFrames_eq_range_map, Int.toNat_natCast,
    List.getD_eq_getElem?_getD, List.getElem?_map, List.getElem?_range hi']
  rfl

/-- C3 witness: in a `4 × 4` grid with `128 × 128` frames, index 14 resolves
to `(256, 384)`. -/
theorem generateFramePositions_grid_rowMajor_witness :
    ([(14 : Int)] : List Int)[0]? = some ((14 : Nat) : Int) ∧ (14 : Nat) < 4 * 4 ∧
      (generateFramePositions ⟨(128, 128), Layout.Grid 4 4⟩ [(14 : Int)])[0]? =
        some (256, 384) := by
  refine ⟨by decide, by decide, ?_⟩
  have h := generateFramePositions_grid_rowMajor 4 4 128 128 [(14 : Int)] 0 14
    (by decide) (by decide)
  simpa using h

/-- C4 counterexample: the claim states that for every layout an out-of-range
index resolves to `(0, 0)`; but the `Horizontal` branch performs no range
check, so index `-1` with `100 × 100` frames resolves to `(-100, 0)`. -/
theorem generateFramePositions_horizontal_negative_cex :
    generateFramePositions ⟨(100, 100), Layout.Horizontal⟩ [(-1 : Int)] = [(-100, 0)] ∧
      generateFramePositions ⟨(100, 100), Layout.Horizontal⟩ [(-1 : Int)] ≠ [(0, 0)] := by
  constructor <;> decide

/-- C4 (amended): for a `Grid` layout every out-of-range index (negative or
`≥ cols * rows`) resolves to `(0, 0)`; `Horizontal` and `Vertical` layouts
perform no range check and map index `i` to `(i * w, 0)` and `(0, i * h)`
respectively.  No layout ever fails (the resolver is a total function). -/
theorem generateFramePositions_out_of_range (cols rows : Nat) (w h : Int)
    (frames : List Int) (j : Nat) (i : Int) (hj : frames[j]? = some i) :
    ((i < 0 ∨ ((cols * rows : Nat) : Int) ≤ i) →
      (generateFramePositions ⟨(w, h), Layout.Grid cols rows⟩ frames)[j]? = some (0, 0)) ∧
    (generateFramePositions ⟨(w, h), Layout.Horizontal⟩ frames)[j]? = some (i * w, 0) ∧
    (generateFramePositions ⟨(w, h), Layout.Vertical⟩ frames)[j]? = some (0, i * h) := by
  refine ⟨fun hout => ?_, ?_, ?_⟩
  · simp only [generateFramePositions]
    rw [List.getElem?_map, hj, Option.map_some']
    have hcond : ¬(i < ((gridAllFrames cols rows w h).length : Int) ∧ 0 ≤ i) := by
      rw [gridAllFrames_length]
      rcases hout with hneg | hbig
      · exact fun hc => absurd hc.2 (by omega)
      · intro hc
        have : ((rows * cols : Nat) : Int) = ((cols * rows : Nat) : Int) := by
          rw [Nat.mul_comm]
        omega
    rw [if_neg hcond]
  · simp only [generateFramePositions]
    rw [List.getElem?_map, hj, Option.map_some']
  · simp only [generateFramePositions]
    rw [List.getElem?_map, hj, Option.map_some']

/-- C4 witness: in a `2 × 2` grid with `100 × 100` frames, the out-of-range
index 10 (at position 1 of the list `[-1, 10]`) resolves to `(0, 0)`. -/
theorem generateFramePositions_out_of_range_witness :
    ([(-1 : Int), 10] : List Int)[1]? = some (10 : Int) ∧
      ((10 : Int) < 0 ∨ ((2 * 2 : Nat) : Int) ≤ 10) ∧
      (generateFramePositions ⟨(100, 100), Layout.Grid 2 2⟩ [(-1 : Int), 10])[1]? =
        some (0, 0) := by
  refine ⟨by decide, Or.inr (by decide), ?_⟩
  exact (generateFramePositions_out_of_range 2 2 100 100 [(-1 : Int), 10] 1 10
    (by decide)).1 (Or.inr (by decide))

/-- C5: the numeric critter handle is the sum of the character codes of the
id modulo 1000, hence always below 1000; `hashCritterId` is a plain function
of the id (so two calls on the same id agree definitionally), and on the two
catalog ids it yields 167 and 307. -/
theorem hashCritterId_pure_bounded :
    (∀ s : String, hashCritterId s < 1000) ∧
      hashCritterId "chirpy_bird" = 167 ∧ hashCritterId "bouncy_bunny" = 307 := by
  refine ⟨fun s => Nat.mod_lt _ (by norm_num), by decide, by decide⟩

/-! ## Audio Subsystem

From `useBevyEventBridge.ts`: `BevyEventBridge.playAudioFile` (candidate list
built inline) and `NativeAudioHandler.playAudioFile` /
`NativeAudioHandler.buildAudioCandidates` / `setupContextVolumes`.

The outcome of one playback attempt on a candidate URL (the
`await audio.play()` call together with the measured `audio.duration`) is
abstracted as a function `outcome : String → Except String ℚ`: `Except.ok d`
when playback starts with duration `d`, `Except.error e` when the attempt
throws, `e` being the JS `String(err)` rendering of the thrown value.  The
best-effort metadata probe before each attempt never throws (its promise
always resolves), so it does not affect control flow and is absorbed into
`outcome`. -/

/-- JS `String(lastError)` where `lastError` starts out as `null`. -/
def jsErrString : Option String → String
  | none => "null"
  | some e => e

/-- The playback attempt on `url` fails. -/
def failsOn (outcome : String → Except String ℚ) (url : String) : Bool :=
  match outcome url with
  | Except.error _ => true
  | Except.ok _ => false

/-- Duration carried by a successful attempt (0 as a dummy on failure). -/
def durOf : Except String ℚ → ℚ
  | Except.ok d => d
  | Except.error _ => 0

/-- Error message carried by a failing attempt (empty as a dummy on success). -/
def errMsgOf : Except String ℚ → String
  | Except.ok _ => ""
  | Except.error e => e

/-- The `for (const url of candidates) { try { ... return dur } catch (err)
{ lastError = err } } throw new Error(failPrefix + 'Last error: ' +
String(lastError))` loop shared by both `playAudioFile` implementations. -/
def tryCandidates (outcome : String → Except String ℚ) (failPrefix : String) :
    List String → Option String → Except String ℚ
  | [], lastError =>
      Except.error (failPrefix ++ "Last error: " ++ jsErrString lastError)
  | url :: rest, _ =>
      match outcome url with
      | Except.ok dur => Except.ok dur
      | Except.error err => tryCandidates outcome failPrefix rest (some err)

/-- The list of candidate URLs on which the loop actually invokes
`audio.play()` (instrumentation of the same loop, for the call-count
assertion of the claim). -/
def attemptedCandidates (outcome : String → Except String ℚ) : List String → List String
  | [] => []
  | url :: rest =>
      match outcome url with
      | Except.ok _ => [url]
      | Except.error _ => url :: attemptedCandidates outcome rest

/-- The value of the loop's `lastError` variable after all candidates failed:
the error of the last candidate, or the initial value if there are none. -/
def lastErrOf (outcome : String → Except String ℚ) (cs : List String)
    (init : Option String) : Option String :=
  match cs.getLast? with
  | some u => some (errMsgOf (outcome u))
  | none => init

/-- Candidate list of `BevyEventBridge.playAudioFile` (built inline at the
top of the method; `.filter(Boolean)` drops the `direct` slot when it is
`undefined`). -/
def bridgeAudioCandidates (soundId base : String) : List String :=
  let id := stripLeadingSlashes soundId
  let bare := stripAudioExt id
  let direct : Option String :=
    if isHttpUrl id then some id
    else if strStartsWith id "assets/" then some (base ++ id)
    else if strStartsWith id "/" then some (base ++ stripOneLeadingSlash id)
    else none
  direct.toList ++
    [base ++ "assets/audio/positive/" ++ id,
     base ++ "assets/audio/positive/" ++ bare ++ ".mp3",
     base ++ "assets/audio/positive/" ++ bare ++ ".ogg",
     base ++ "assets/audio/ui/" ++ id,
     base ++ "assets/audio/ui/" ++ bare ++ ".mp3",
     base ++ "assets/audio/ui/" ++ bare ++ ".ogg",
     base ++ "assets/audio/positive/yipee.ogg",
     base ++ "assets/audio/positive/yipee.mp3",
     "https://interactive-examples.mdn.mozilla.net/media/cc0-audio/t-rex-roar.mp3",
     "https://www.soundhelix.com/examples/mp3/SoundHelix-Song-1.mp3"]

/-- `NativeAudioHandler.buildAudioCandidates(soundId, base)`. -/
def buildAudioCandidates (soundId base : String) : List String :=
  let id := stripLeadingSlashes soundId
  let head : List String :=
    if isHttpUrl soundId then [soundId]
    else if strStartsWith id "assets/" then [base ++ id]
    else if strStartsWith soundId "/" then [base ++ stripOneLeadingSlash soundId]
    else []
  let named : List String :=
    if soundId = "enter_area" ∨ soundId = "enter" then
      [base ++ "assets/audio/ui/enter_chime.mp3",
       base ++ "assets/audio/ui/enter_chime.ogg",
       base ++ "assets/audio/ui/chime.mp3"]
    else if soundId = "exit_area" ∨ soundId = "exit" then
      [base ++ "assets/audio/ui/exit_chime.mp3",
       base ++ "assets/audio/ui/exit_chime.ogg",
       base ++ "assets/audio/ui/chime.mp3"]
    else if soundId = "yipee" then
      [base ++ "assets/audio/positive/yipee.mp3",
       base ++ "assets/audio/positive/yipee.ogg"]
    else
      [base ++ "assets/audio/" ++ soundId ++ ".mp3",
       base ++ "assets/audio/" ++ soundId ++ ".ogg",
       base ++ "assets/audio/ui/" ++ soundId ++ ".mp3",
       base ++ "assets/audio/positive/" ++ soundId ++ ".mp3"]
  head ++ named ++
    [base ++ "assets/audio/positive/yipee.mp3",
     base ++ "assets/audio/positive/yipee.ogg",
     "https://interactive-examples.mdn.mozilla.net/media/cc0-audio/t-rex-roar.mp3"]

/-- `BevyEventBridge.playAudioFile(soundId, volume)` as a function of the
abstracted playback outcomes. -/
def bridgePlayAudioFile (outcome : String → Except String ℚ)
    (soundId base : String) : Except String ℚ :=
  tryCandidates outcome "All audio candidates failed. "
    (bridgeAudioCandidates soundId base) none

/-- `NativeAudioHandler.playAudioFile(soundId, volume, context, loop)` as a
function of the abstracted playback outcomes (its volume computation is
modelled by `effectiveVolume` below). -/
def nativePlayAudioFile (outcome : String → Except String ℚ)
    (soundId base : String) : Except String ℚ :=
  tryCandidates outcome ("All audio candidates failed for " ++ soundId ++ ". ")
    (buildAudioCandidates soundId base) none

/-- `NativeAudioHandler.setupContextVolumes()`: the fixed per-context volume
multiplier table. -/
def contextVolumes : List (String × ℚ) :=
  [("Enter", 8/10), ("Exit", 7/10), ("UI", 6/10),
   ("Critter", 9/10), ("Ambient", 4/10), ("Test", 8/10)]

/-- `this.contextVolumes.get(context) || 1.0` (JS `||` replaces a falsy — in
particular zero — table value by 1.0 as well as a missing one). -/
def contextMultiplier (context : String) : ℚ :=
  match List.lookup context contextVolumes with
  | some v => if v = 0 then 1 else v
  | none => 1

/-- `effectiveVolume = Math.max(0, Math.min(1, volume * contextVolume))`
from `NativeAudioHandler.playAudioFile`. -/
def effectiveVolume (volume : ℚ) (context : String) : ℚ :=
  max 0 (min 1 (volume * contextMultiplier context))

/-! ### Lemmas about the candidate loop -/

/-- Closed form of the candidate loop: the result is the duration of the
first candidate that does not fail, or the aggregate error built from the
last `lastError` when every candidate fails. -/
theorem tryCandidates_eq (outcome : String → Except String ℚ) (fp : String)
    (cs : List String) (init : Option String) :
    tryCandidates outcome fp cs init =
      match cs.dropWhile (failsOn outcome) with
      | url :: _ => Except.ok (durOf (outcome url))
      | [] => Except.error (fp ++ "Last error: " ++
          jsErrString (lastErrOf outcome cs init)) := by
  induction cs generalizing init with
  | nil => rfl
  | cons u rest ih =>
    cases hu : outcome u with
    | ok d =>
      have hf : failsOn outcome u = false := by simp [failsOn, hu]
      simp only [tryCandidates, hu, List.dropWhile_cons, hf]
      simp [durOf, hu]
    | error e =>
      have hf : failsOn outcome u = true := by simp [failsOn, hu]
      simp only [tryCandidates, hu, List.dropWhile_cons, hf, if_true]
      rw [ih (some e)]
      cases rest with
      | nil => simp [lastErrOf, errMsgOf, hu]
      | cons v t =>
        have hlast : lastErrOf outcome (v :: t) (some e) =
            lastErrOf outcome (u :: v :: t) init := by
          unfold lastErrOf
          rw [List.getLast?_cons_cons]
          cases hg : (v :: t).getLast? with
          | none => simp at hg
          | some x => rfl
        rw [hlast]

/-- The attempted candidates are the failing ones up to and including the
first success. -/
theorem attemptedCandidates_eq (outcome : String → Except String ℚ) (cs : List String) :
    attemptedCandidates outcome cs =
      cs.takeWhile (failsOn outcome) ++ (cs.dropWhile (failsOn outcome)).take 1 := by
  induction cs with
  | nil => rfl
  | cons u rest ih =>
    cases hu : outcome u with
    | ok d =>
      have hf : failsOn outcome u = false := by simp [failsOn, hu]
      simp [attemptedCandidates, hu, List.takeWhile_cons, List.dropWhile_cons, hf]
    | error e =>
      have hf : failsOn outcome u = true := by simp [failsOn, hu]
      simp [attemptedCandidates, hu, List.takeWhile_cons, List.dropWhile_cons, hf, ih]

/-- Full behavioral characterization of the candidate loop on an arbitrary
candidate list, with `lastError` initialized to `null`. -/
theorem tryCandidates_spec (outcome : String → Except String ℚ) (fp : String)
    (cs : List String) :
    (∀ url rest, cs.dropWhile (failsOn outcome) = url :: rest →
        tryCandidates outcome fp cs none = Except.ok (durOf (outcome url)) ∧
        attemptedCandidates outcome cs = cs.takeWhile (failsOn outcome) ++ [url]) ∧
    ((∃ e, tryCandidates outcome fp cs none = Except.error e) ↔
        ∀ u ∈ cs, failsOn outcome u = true) ∧
    ((∀ u ∈ cs, failsOn outcome u = true) →
        tryCandidates outcome fp cs none =
          Except.error (fp ++ "Last error: " ++ jsErrString (lastErrOf outcome cs none))) := by
  refine ⟨fun url rest h => ?_, ⟨fun he => ?_, fun hall => ?_⟩, fun hall => ?_⟩
  · constructor
    · rw [tryCandidates_eq, h]
    · rw [attemptedCandidates_eq, h]
      simp
  · cases hdrop : cs.dropWhile (failsOn outcome) with
    | nil =>
      intro u hu
      exact List.dropWhile_eq_nil_iff.mp hdrop u hu
    | cons v t =>
      obtain ⟨e, he⟩ := he
      rw [tryCandidates_eq, hdrop] at he
      exact absurd he (by simp)
  · refine ⟨fp ++ "Last error: " ++ jsErrString (lastErrOf outcome cs none), ?_⟩
    rw [tryCandidates_eq, List.dropWhile_eq_nil_iff.mpr hall]
  · rw [tryCandidates_eq, List.dropWhile_eq_nil_iff.mpr hall]

/-! ### Claims C2, C8 -/

/-- C2: both audio playback implementations attempt their ordered candidate
list one by one; the first candidate whose playback starts wins (its duration
is returned and no later candidate is attempted), and the call rejects
exactly when every candidate fails, with an aggregate error naming the last
underlying failure. -/
theorem playAudioFile_first_success_wins (outcome : String → Except String ℚ)
    (soundId base : String) :
    (∀ url rest,
        (bridgeAudioCandidates soundId base).dropWhile (failsOn outcome) = url :: rest →
          bridgePlayAudioFile outcome soundId base = Except.ok (durOf (outcome url)) ∧
          attemptedCandidates outcome (bridgeAudioCandidates soundId base) =
            (bridgeAudioCandidates soundId base).takeWhile (failsOn outcome) ++ [url]) ∧
    ((∃ e, bridgePlayAudioFile outcome soundId base = Except.error e) ↔
        ∀ u ∈ bridgeAudioCandidates soundId base, failsOn outcome u = true) ∧
    ((∀ u ∈ bridgeAudioCandidates soundId base, failsOn outcome u = true) →
        bridgePlayAudioFile outcome soundId base =
          Except.error ("All audio candidates failed. " ++ "Last error: " ++
            jsErrString (lastErrOf outcome (bridgeAudioCandidates soundId base) none))) ∧
    (∀ url rest,
        (buildAudioCandidates soundId base).dropWhile (failsOn outcome) = url :: rest →
          nativePlayAudioFile outcome soundId base = Except.ok (durOf (outcome url)) ∧
          attemptedCandidates outcome (buildAudioCandidates soundId base) =
            (buildAudioCandidates soundId base).takeWhile (failsOn outcome) ++ [url]) ∧
    ((∃ e, nativePlayAudioFile outcome soundId base = Except.error e) ↔
        ∀ u ∈ buildAudioCandidates soundId base, failsOn outcome u = true) ∧
    ((∀ u ∈ buildAudioCandidates soundId base, failsOn outcome u = true) →
        nativePlayAudioFile outcome soundId base =
          Except.error ("All audio candidates failed for " ++ soundId ++ ". " ++
            "Last error: " ++
            jsErrString (lastErrOf outcome (buildAudioCandidates soundId base) none))) := by
  obtain ⟨hB1, hB2, hB3⟩ := tryCandidates_spec outcome "All audio candidates failed. "
    (bridgeAudioCandidates soundId base)
  obtain ⟨hN1, hN2, hN3⟩ := tryCandidates_spec outcome
    ("All audio candidates failed for " ++ soundId ++ ". ")
    (buildAudioCandidates soundId base)
  exact ⟨hB1, hB2, hB3, hN1, hN2, hN3⟩

/-- The per-context multiplier is always positive and at most 1 (every table
entry lies in that range and the fallback is 1). -/
theorem contextMultiplier_pos_le_one (c : String) :
    0 < contextMultiplier c ∧ contextMultiplier c ≤ 1 := by
  unfold contextMultiplier contextVolumes
  simp only [List.lookup]
  split
  case h_1 v heq =>
    split
    · norm_num
    · repeat' split at heq
      all_goals first
        | (simp only [Option.some.injEq] at heq; subst heq; norm_num)
        | simp at heq
  case h_2 heq => norm_num

/-- C8: for a requested volume in `[0, 1]`, the volume applied to the audio
element is exactly the requested volume times the per-context multiplier
(Enter 0.8, Exit 0.7, UI 0.6, Critter 0.9, Ambient 0.4, Test 0.8, and 1.0
for a context with no table entry): the `max 0 (min 1 ·)` clamp is the
identity there. -/
theorem effectiveVolume_context_multiplier (v : ℚ) (c : String)
    (h0 : 0 ≤ v) (h1 : v ≤ 1) :
    effectiveVolume v c = v * contextMultiplier c := by
  obtain ⟨hp, hle⟩ := contextMultiplier_pos_le_one c
  unfold effectiveVolume
  have hub : v * contextMultiplier c ≤ 1 := by nlinarith
  have hlb : 0 ≤ v * contextMultiplier c := mul_nonneg h0 hp.le
  rw [min_eq_right hub, max_eq_right hlb]

/-- C8 witness: a `Play` request at volume `1/2` in context `UI` applies
exactly `1/2 × 0.6 = 0.3`. -/
theorem effectiveVolume_context_multiplier_witness :
    (0 : ℚ) ≤ 1/2 ∧ (1/2 : ℚ) ≤ 1 ∧
      effectiveVolume (1/2) "UI" = 1/2 * contextMultiplier "UI" ∧
      effectiveVolume (1/2) "UI" = 3/10 := by
  refine ⟨by norm_num, by norm_num,
    effectiveVolume_context_multiplier (1/2) "UI" (by norm_num) (by norm_num), ?_⟩
  have h := effectiveVolume_context_multiplier (1/2) "UI" (by norm_num) (by norm_num)
  have hm : contextMultiplier "UI" = 6/10 := by
    simp [contextMultiplier, contextVolumes, List.lookup]
  rw [h, hm]
  norm_num

/-! ## Bevy Event Bridge: the PlayAudio handler

From `BevyEventBridge.handlePlayAudio` (`useBevyEventBridge.ts`).  The
playback attempt `await this.playAudioFile(sound_id, volume)` is abstracted
as `playResult : Except String ℚ` (its error string being the rendered
message of the caught value); the handler itself is the pure function from
the envelope fields and that result to the effects it performs. -/

/-- The `JsToBevyEvent` fields populated by an `AudioCompleted` response. -/
structure JsToBevyEvent where
  type : String
  request_id : String
  success : Option Bool
  error_message : Option String
  duration_seconds : Option ℚ
deriving DecidableEq, Repr

/-- Observable effects of one handler run: responses handed to
`sendToBevy`, console log lines, and `incrementErrorCount` calls. -/
structure HandlerEffects where
  responses : List JsToBevyEvent
  logs : List String
  counterIncs : List String
deriving DecidableEq, Repr

/-- `BevyEventBridge.handlePlayAudio(event)`: a guard on the (JS-truthy)
`request_id` and `sound_id` fields, then one `AudioCompleted` response with
`success: true` and the duration, or `success: false` and the error message.
The catch block logs but calls no `incrementErrorCount`. -/
def handlePlayAudio (request_id sound_id : Option String)
    (playResult : Except String ℚ) : HandlerEffects :=
  match request_id, sound_id with
  | some rid, some sid =>
    if rid = "" ∨ sid = "" then
      { responses := [], logs := ["PlayAudio event missing required fields"],
        counterIncs := [] }
    else
      match playResult with
      | Except.ok dur =>
        { responses := [{ type := "AudioCompleted", request_id := rid,
                          success := some true, error_message := none,
                          duration_seconds := some dur }],
          logs := ["Playing audio: " ++ sid, "Audio completed: " ++ sid],
          counterIncs := [] }
      | Except.error msg =>
        { responses := [{ type := "AudioCompleted", request_id := rid,
                          success := some false, error_message := some msg,
                          duration_seconds := none }],
          logs := ["Playing audio: " ++ sid, "Audio failed: " ++ sid],
          counterIncs := [] }
  | _, _ =>
    { responses := [], logs := ["PlayAudio event missing required fields"],
      counterIncs := [] }

/-! ### Claim C6 -/

/-- C6 counterexample: on a failing playback for a well-formed envelope the
handler sends the `success: false` response and logs, but performs no
failure-counter increment, contradicting the claim that every failure path
increments a named failure counter. -/
theorem handlePlayAudio_failure_no_counter_cex :
    (handlePlayAudio (some "r1") (some "yipee") (Except.error "boom")).responses =
      [{ type := "AudioCompleted", request_id := "r1", success := some false,
         error_message := some "boom", duration_seconds := none }] ∧
    (handlePlayAudio (some "r1") (some "yipee") (Except.error "boom")).counterIncs = [] ∧
    (handlePlayAudio (some "r1") (some "yipee") (Except.error "boom")).logs ≠ [] := by
  refine ⟨rfl, rfl, ?_⟩
  intro h
  simp [handlePlayAudio] at h

/-- C6 (amended): for every PlayAudio envelope carrying nonempty
`request_id` and `sound_id`, the handler sends exactly one `AudioCompleted`
response with that `request_id` — `success: true` plus duration on success,
`success: false` plus error message on failure — and never rejects (it is a
total function of the playback result); the failure path logs, but no
failure counter is incremented by it (the `bevy_event_failed` counter fires
only when the outer dispatch promise rejects, which this handler never
causes). -/
theorem handlePlayAudio_single_response (rid sid : String) (res : Except String ℚ)
    (hrid : rid ≠ "") (hsid : sid ≠ "") :
    (handlePlayAudio (some rid) (some sid) res).responses =
      [match res with
       | Except.ok d =>
         { type := "AudioCompleted", request_id := rid, success := some true,
           error_message := none, duration_seconds := some d }
       | Except.error m =>
         { type := "AudioCompleted", request_id := rid, success := some false,
           error_message := some m, duration_seconds := none }] ∧
    (∀ m, res = Except.error m → (handlePlayAudio (some rid) (some sid) res).logs ≠ []) ∧
    (handlePlayAudio (some rid) (some sid) res).counterIncs = [] := by
  cases res with
  | ok d =>
    refine ⟨?_, ?_, ?_⟩ <;> simp [handlePlayAudio, hrid, hsid]
  | error m =>
    refine ⟨?_, ?_, ?_⟩ <;> simp [handlePlayAudio, hrid, hsid]

/-- C6 witness: a concrete successful envelope yields the single success
response. -/
theorem handlePlayAudio_single_response_witness :
    ("r1" : String) ≠ "" ∧ ("yipee" : String) ≠ "" ∧
      (handlePlayAudio (some "r1") (some "yipee") (Except.ok 1)).responses =
        [{ type := "AudioCompleted", request_id := "r1", success := some true,
           error_message := none, duration_seconds := some 1 }] := by
  refine ⟨by decide, by decide, ?_⟩
  have h := handlePlayAudio_single_response "r1" "yipee" (Except.ok 1)
    (by decide) (by decide)
  simpa using h.1

/-! ## Device Registry & Command Protocol

From `BluetoothService.ts`.  The WASM `GameEngine` is abstracted as the
record of the two response-producing calls the modelled methods make
(`start_bluetooth_scan`, `send_bluetooth_command`); the remaining engine
calls (`stop_bluetooth_scan`, `enable_virtual_bluetooth`,
`disable_virtual_bluetooth`, `disconnect_bluetooth_device`) return nothing
the service reads, so they need no model beyond the transport-call log.
`JSON.stringify(command)` is a fixed injective encoding, so the transport
log records the `(deviceId, command)` pair whose JSON rendering is what
`send_bluetooth_command` receives. -/

/-- `CollarType`. -/
inductive CollarType where
  | TrainingCollar | GPSCollar | HealthMonitor | SmartTag
deriving DecidableEq, Repr

/-- `SensorType`. -/
inductive SensorType where
  | Accelerometer | Gyroscope | HeartRate | Temperature | GPS | Microphone
deriving DecidableEq, Repr

/-- `BluetoothDeviceType` (recursive through `VirtualDevice`). -/
inductive BluetoothDeviceType where
  | SmartCollar (collar_type : CollarType)
  | FeedingStation (capacity_ml : Nat)
  | ToyDispenser (toy_count : Nat)
  | ActivityTracker (sensors : List SensorType)
  | VirtualDevice (emulated_type : BluetoothDeviceType)
  | TestDevice (device_name : String)
  | Unknown (service_uuid : String)
deriving DecidableEq, Repr

/-- `DeviceId`. -/
structure DeviceId where
  id : String
deriving DecidableEq, Repr

/-- `DeviceInfo`. -/
structure DeviceInfo where
  id : DeviceId
  name : String
  device_type : BluetoothDeviceType
  rssi : Int
  services : List String
  manufacturer_data : Option String
  is_connected : Bool
  last_seen : Option Nat
  battery_level : Option Nat
deriving DecidableEq, Repr

/-- `TrainingMode`. -/
inductive TrainingMode where
  | Positive | Correction | Alert | Silent
deriving DecidableEq, Repr

/-- `FeedingSchedule` (`times` in "HH:MM" format, `portions` in grams). -/
structure FeedingSchedule where
  times : List String
  portions : List Nat
deriving DecidableEq, Repr

/-- `CollarCommand` (its `volume` is a JS number in `[0,1]`, kept exact). -/
inductive CollarCommand where
  | Vibrate (intensity : Nat) (duration_ms : Nat)
  | PlaySound (sound_id : Nat) (volume : ℚ)
  | SetTrainingMode (mode : TrainingMode)
  | GetLocation
  | GetHealthMetrics
deriving DecidableEq, Repr

/-- `FeedingCommand`. -/
inductive FeedingCommand where
  | DispenseFood (amount_grams : Nat)
  | GetFoodLevel
  | SetFeedingSchedule (schedule : FeedingSchedule)
  | GetFeedingHistory
deriving DecidableEq, Repr

/-- `TrackerCommand`. -/
inductive TrackerCommand where
  | GetActivityData (start_time end_time : Nat)
  | StartActivityTracking
  | StopActivityTracking
  | GetSensorData (sensor : SensorType)
  | CalibrateDevice
deriving DecidableEq, Repr

/-- `ZephyrCommand`: the closed tagged command set, with `RawCommand` as the
only escape hatch. -/
inductive ZephyrCommand where
  | GetDeviceInfo
  | GetBatteryLevel
  | SetLEDState (r g b : Nat)
  | Reboot
  | CollarCommands (command : CollarCommand)
  | FeedingCommands (command : FeedingCommand)
  | TrackerCommands (command : TrackerCommand)
  | RawCommand (service_uuid characteristic_uuid : String) (data : List Nat)
deriving DecidableEq, Repr

/-- `BluetoothError` (an `Error` subclass with `code` and `deviceId`). -/
structure BluetoothError where
  message : String
  code : Option String
  deviceId : Option String
deriving DecidableEq, Repr

/-- The abstracted game-engine transport: the request-id each
response-producing call returns. -/
structure GameEngine where
  start_bluetooth_scan : Option Nat → String
  send_bluetooth_command : String → ZephyrCommand → String

/-- The mutable fields of `BluetoothService`, plus the absolute fire times
of the auto-stop timers scheduled by `startScan` (`setTimeout` bookkeeping,
needed to state the temporal claim). -/
structure BluetoothServiceState where
  gameEngine : Option GameEngine
  isScanning : Bool
  connectedDevices : List (String × DeviceInfo)
  discoveredDevices : List (String × DeviceInfo)
  virtualNetworkEnabled : Bool
  errorCounts : List (String × Nat)
  autoStopTimers : List Nat

/-- JS `Map.prototype.has`. -/
def hasDevice (m : List (String × DeviceInfo)) (k : String) : Bool :=
  m.any (fun p => p.1 = k)

/-- `incrementErrorCount(context)`: `errorCounts.set(ctx, (get(ctx) || 0) + 1)`. -/
def incrementErrorCount (m : List (String × Nat)) (context : String) : List (String × Nat) :=
  if m.any (fun p => p.1 = context) then
    m.map (fun p => if p.1 = context then (p.1, p.2 + 1) else p)
  else
    m ++ [(context, 1)]

/-- The `BluetoothError` thrown by `sendCommand` for a non-connected device. -/
def notConnectedError (deviceId : String) : BluetoothError :=
  { message := "Device " ++ deviceId ++ " not connected",
    code := some "NOT_CONNECTED", deviceId := some deviceId }

/-- The `BluetoothError` thrown when the engine reference is null. -/
def engineNotInitializedError : BluetoothError :=
  { message := "Game engine not initialized", code := none, deviceId := none }

/-- Body of `sendCommand` inside the error boundary: the thrown/returned
value together with the transport calls performed
(`gameEngine.send_bluetooth_command`). -/
def sendCommandInner (s : BluetoothServiceState) (deviceId : String)
    (command : ZephyrCommand) :
    Except BluetoothError String × List (String × ZephyrCommand) :=
  if hasDevice s.connectedDevices deviceId = false then
    (Except.error (notConnectedError deviceId), [])
  else
    match s.gameEngine with
    | some engine =>
      (Except.ok (engine.send_bluetooth_command deviceId command), [(deviceId, command)])
    | none => (Except.error engineNotInitializedError, [])

/-- Result of the public `sendCommand(deviceId, command, timeoutMs)`: the
`Promise<string | null>` value, the state after the error boundary ran, the
transport calls, and the console log lines. -/
structure SendCommandResult where
  result : Option String
  state : BluetoothServiceState
  transportCalls : List (String × ZephyrCommand)
  logs : List String

/-- `sendCommand` wrapped in `createErrorBoundary`: a thrown error is
logged, bumps the `bluetooth_send_command_failed` counter and resolves to
`null`. -/
def sendCommand (s : BluetoothServiceState) (deviceId : String)
    (command : ZephyrCommand) (timeoutMs : Nat) : SendCommandResult :=
  let entry := "Sending command to " ++ deviceId ++
    " (timeout: " ++ toString timeoutMs ++ "ms)"
  match sendCommandInner s deviceId command with
  | (Except.ok requestId, calls) =>
    { result := some requestId, state := s, transportCalls := calls, logs := [entry] }
  | (Except.error e, calls) =>
    { result := none,
      state := { s with errorCounts :=
        incrementErrorCount s.errorCounts "bluetooth_send_command_failed" },
      transportCalls := calls,
      logs := [entry, e.message] }

/-- `startScan(options)` at absolute time `now`: throws inside the boundary
if a scan is already running or the engine is missing (the boundary turns
that into `null` plus a counter bump); otherwise flips the scanning flag and,
when a duration is given, schedules the auto-stop `setTimeout` at
`now + duration_ms`. -/
def startScan (s : BluetoothServiceState) (now : Nat) (duration_ms : Option Nat) :
    Option String × BluetoothServiceState :=
  if s.isScanning then
    (none, { s with errorCounts :=
      incrementErrorCount s.errorCounts "bluetooth_start_scan_failed" })
  else
    match s.gameEngine with
    | some engine =>
      let requestId := engine.start_bluetooth_scan duration_ms
      let s1 := { s with isScanning := true }
      let s2 :=
        match duration_ms with
        | some d => { s1 with autoStopTimers := s1.autoStopTimers ++ [now + d] }
        | none => s1
      (some requestId, s2)
    | none =>
      (none, { s with errorCounts :=
        incrementErrorCount s.errorCounts "bluetooth_start_scan_failed" })

/-- `stopScan()`: a no-op unless scanning; clears the flag when the engine
is present. -/
def stopScan (s : BluetoothServiceState) : BluetoothServiceState :=
  if s.isScanning = false then s
  else
    match s.gameEngine with
    | some _ => { s with isScanning := false }
    | none => s

/-- The auto-stop `setTimeout` callback scheduled by `startScan`:
`() => this.stopScan().catch(...)`. -/
def fireAutoStop (s : BluetoothServiceState) : BluetoothServiceState :=
  stopScan s

/-- JS `Map.prototype.delete` on an association list. -/
def eraseKey (m : List (String × DeviceInfo)) (k : String) : List (String × DeviceInfo) :=
  m.filter (fun p => p.1 != k)

/-- `disableVirtualNetwork()`: when the engine is present, clears the flag
and deletes every `virtual_`-prefixed entry from both device maps while
iterating the discovered map (deleting the entry a JS Map iterator is on is
safe, and no entries are added during the loop, so iterating the initial
key list is equivalent). -/
def disableVirtualNetwork (s : BluetoothServiceState) : BluetoothServiceState :=
  match s.gameEngine with
  | some _ =>
    let keys := s.discoveredDevices.map Prod.fst
    let maps := keys.foldl
      (fun (dc : List (String × DeviceInfo) × List (String × DeviceInfo)) k =>
        if strStartsWith k "virtual_" then (eraseKey dc.1 k, eraseKey dc.2 k) else dc)
      (s.discoveredDevices, s.connectedDevices)
    { s with discoveredDevices := maps.1, connectedDevices := maps.2,
             virtualNetworkEnabled := false }
  | none => s

/-! ### Claim C1 -/

/-- C1: `sendCommand` for a device absent from the connected-device map
throws the `NOT_CONNECTED` `BluetoothError` before any engine call — the
transport log stays empty and the boundary resolves the call to `null` while
bumping the failure counter; the transport is only ever handed the
(serialized) command when the device is connected, and with a present engine
a connected device's command is handed over exactly once. -/
theorem sendCommand_notConnected_failsFast (s : BluetoothServiceState)
    (deviceId : String) (command : ZephyrCommand) (timeoutMs : Nat) :
    (hasDevice s.connectedDevices deviceId = false →
      (sendCommandInner s deviceId command).1 =
        Except.error (notConnectedError deviceId) ∧
      (sendCommandInner s deviceId command).2 = [] ∧
      (sendCommand s deviceId command timeoutMs).result = none ∧
      (sendCommand s deviceId command timeoutMs).transportCalls = [] ∧
      (sendCommand s deviceId command timeoutMs).state.errorCounts =
        incrementErrorCount s.errorCounts "bluetooth_send_command_failed") ∧
    ((sendCommandInner s deviceId command).2 ≠ [] →
      hasDevice s.connectedDevices deviceId = true ∧
      (sendCommandInner s deviceId command).2 = [(deviceId, command)]) ∧
    (∀ engine, s.gameEngine = some engine →
      hasDevice s.connectedDevices deviceId = true →
      (sendCommandInner s deviceId command).1 =
        Except.ok (engine.send_bluetooth_command deviceId command) ∧
      (sendCommandInner s deviceId command).2 = [(deviceId, command)]) := by
  refine ⟨fun hnc => ?_, fun htc => ?_, fun engine heng hc => ?_⟩
  · refine ⟨?_, ?_, ?_, ?_, ?_⟩ <;> simp [sendCommandInner, sendCommand, hnc]
  · by_cases hc : hasDevice s.connectedDevices deviceId = false
    · simp [sendCommandInner, hc] at htc
    · have hc' : hasDevice s.connectedDevices deviceId = true := by
        simpa using hc
      refine ⟨hc', ?_⟩
      cases heng : s.gameEngine with
      | none => simp [sendCommandInner, hc', heng] at htc
      | some engine => simp [sendCommandInner, hc', heng]
  · refine ⟨?_, ?_⟩ <;> simp [sendCommandInner, heng, hc]

/-- C1 witness: with no connected devices, sending `GetBatteryLevel` to
`virtual_collar_001` contacts no transport and resolves to `null`. -/
theorem sendCommand_notConnected_failsFast_witness :
    hasDevice
      (BluetoothServiceState.connectedDevices
        ⟨some ⟨fun _ => "scan-1", fun _ _ => "req-1"⟩, false, [], [], false, [], []⟩)
      "virtual_collar_001" = false ∧
    (sendCommandInner
      ⟨some ⟨fun _ => "scan-1", fun _ _ => "req-1"⟩, false, [], [], false, [], []⟩
      "virtual_collar_001" ZephyrCommand.GetBatteryLevel).2 = [] ∧
    (sendCommand
      ⟨some ⟨fun _ => "scan-1", fun _ _ => "req-1"⟩, false, [], [], false, [], []⟩
      "virtual_collar_001" ZephyrCommand.GetBatteryLevel 5000).result = none := by
  have h := (sendCommand_notConnected_failsFast
    ⟨some ⟨fun _ => "scan-1", fun _ _ => "req-1"⟩, false, [], [], false, [], []⟩
    "virtual_collar_001" ZephyrCommand.GetBatteryLevel 5000).1 rfl
  exact ⟨rfl, h.2.1, h.2.2.1⟩

/-! ### Claim C7 -/

/-- C7: a successful `startScan` with a duration flips the scanning flag on
and appends an auto-stop timer whose fire time is exactly the call time plus
the duration (so the `setTimeout` runs at or after `durationMs` elapsed);
when that timer's callback (`stopScan`) runs, the scanning flag is false
again even though the caller never called `stopScan`. -/
theorem startScan_schedules_auto_stop (s : BluetoothServiceState) (now d : Nat)
    (hscan : s.isScanning = false) (heng : s.gameEngine.isSome = true) :
    (startScan s now (some d)).2.isScanning = true ∧
    (startScan s now (some d)).2.autoStopTimers = s.autoStopTimers ++ [now + d] ∧
    (fireAutoStop (startScan s now (some d)).2).isScanning = false := by
  obtain ⟨engine, heq⟩ := Option.isSome_iff_exists.mp heng
  refine ⟨?_, ?_, ?_⟩ <;>
    simp [startScan, stopScan, fireAutoStop, hscan, heq]

/-- C7 witness: a scan started at time 0 with `durationMs = 10000` on a
fresh initialized service schedules the auto-stop at time 10000, and firing
it clears the scanning flag. -/
theorem startScan_schedules_auto_stop_witness :
    (BluetoothServiceState.isScanning
      ⟨some ⟨fun _ => "scan-1", fun _ _ => "req-1"⟩, false, [], [], false, [], []⟩) = false ∧
    (BluetoothServiceState.gameEngine
      ⟨some ⟨fun _ => "scan-1", fun _ _ => "req-1"⟩, false, [], [], false, [], []⟩).isSome = true ∧
    (startScan
      ⟨some ⟨fun _ => "scan-1", fun _ _ => "req-1"⟩, false, [], [], false, [], []⟩
      0 (some 10000)).2.isScanning = true ∧
    (startScan
      ⟨some ⟨fun _ => "scan-1", fun _ _ => "req-1"⟩, false, [], [], false, [], []⟩
      0 (some 10000)).2.autoStopTimers = [10000] ∧
    (fireAutoStop (startScan
      ⟨some ⟨fun _ => "scan-1", fun _ _ => "req-1"⟩, false, [], [], false, [], []⟩
      0 (some 10000)).2).isScanning = false := by
  have h := startScan_schedules_auto_stop
    ⟨some ⟨fun _ => "scan-1", fun _ _ => "req-1"⟩, false, [], [], false, [], []⟩
    0 10000 rfl rfl
  exact ⟨rfl, rfl, h.1, by simpa using h.2.1, h.2.2⟩

/-! ### Claim C10 -/

/-- One-map version of the deletion loop of `disableVirtualNetwork`. -/
def processKeys (keys : List String) (m : List (String × DeviceInfo)) :
    List (String × DeviceInfo) :=
  keys.foldl (fun acc k => if strStartsWith k "virtual_" then eraseKey acc k else acc) m

/-- Unfolding `processKeys` one key at a time. -/
theorem processKeys_cons (k : String) (ks : List String)
    (m : List (String × DeviceInfo)) :
    processKeys (k :: ks) m =
      processKeys ks (if strStartsWith k "virtual_" then eraseKey m k else m) := rfl

/-- The paired deletion loop acts on the two maps independently. -/
theorem disable_foldl_split (keys : List String) (d c : List (String × DeviceInfo)) :
    keys.foldl
      (fun (dc : List (String × DeviceInfo) × List (String × DeviceInfo)) k =>
        if strStartsWith k "virtual_" then (eraseKey dc.1 k, eraseKey dc.2 k) else dc)
      (d, c) = (processKeys keys d, processKeys keys c) := by
  induction keys generalizing d c with
  | nil => rfl
  | cons k ks ih =>
    rw [List.foldl_cons, processKeys_cons, processKeys_cons]
    by_cases hk : strStartsWith k "virtual_" = true
    · rw [if_pos hk, if_pos hk, if_pos hk]
      exact ih _ _
    · rw [if_neg hk, if_neg hk, if_neg hk]
      exact ih _ _

/-- The deletion loop filters out exactly the `virtual_`-prefixed entries
among the visited keys. -/
theorem processKeys_eq_filter (keys : List String) (m : List (String × DeviceInfo)) :
    processKeys keys m =
      m.filter (fun p => !(strStartsWith p.1 "virtual_" && keys.contains p.1)) := by
  induction keys generalizing m with
  | nil => simp [processKeys]
  | cons k ks ih =>
    rw [processKeys_cons]
    by_cases hk : strStartsWith k "virtual_" = true
    · rw [if_pos hk, ih]
      unfold eraseKey
      rw [List.filter_filter]
      apply List.filter_congr
      intro p hp
      by_cases hpk : p.1 = k
      · simp [hpk, hk, List.contains_cons]
      · simp [hpk, List.contains_cons]
    · rw [if_neg hk, ih]
      have hk' : strStartsWith k "virtual_" = false := by simpa using hk
      apply List.filter_congr
      intro p hp
      by_cases hpk : p.1 = k
      · simp [hpk, hk', List.contains_cons]
      · simp [hpk, List.contains_cons]

/-- C10: when the engine is present and (as the service maintains) every
connected device id is also a discovered key, `disableVirtualNetwork`
removes exactly the `virtual_`-prefixed entries from both maps, leaves every
other entry unchanged, and clears the virtual-network flag. -/
theorem disableVirtualNetwork_removes_virtual (s : BluetoothServiceState)
    (heng : s.gameEngine.isSome = true)
    (hsub : ∀ p ∈ s.connectedDevices,
      (s.discoveredDevices.map Prod.fst).contains p.1 = true) :
    (disableVirtualNetwork s).discoveredDevices =
      s.discoveredDevices.filter (fun p => !(strStartsWith p.1 "virtual_")) ∧
    (disableVirtualNetwork s).connectedDevices =
      s.connectedDevices.filter (fun p => !(strStartsWith p.1 "virtual_")) ∧
    (disableVirtualNetwork s).virtualNetworkEnabled = false := by
  cases hgs : s.gameEngine with
  | none => rw [hgs] at heng; exact absurd heng (by simp)
  | some engine =>
    simp only [disableVirtualNetwork, hgs, disable_foldl_split, processKeys_eq_filter]
    refine ⟨?_, ?_, by trivial⟩
    · apply List.filter_congr
      intro p hp
      have hc : (List.map Prod.fst s.discoveredDevices).contains p.1 = true := by
        have hmem : p.1 ∈ List.map Prod.fst s.discoveredDevices :=
          List.mem_map_of_mem _ hp
        simpa using hmem
      rw [hc]
      simp
    · apply List.filter_congr
      intro p hp
      rw [hsub p hp]
      simp

/-- A discovered virtual collar, as synthesized by
`simulateVirtualDeviceDiscovery` (with a fixed `last_seen`). -/
def sampleCollarDevice : DeviceInfo :=
  ⟨⟨"virtual_collar_001"⟩, "Test Smart Collar",
    BluetoothDeviceType.SmartCollar CollarType.TrainingCollar, -45,
    ["uuid_collar_service"], some "ZephyrCollar_v2.1", true, some 0, some 85⟩

/-- A non-virtual device for contrast. -/
def sampleRealDevice : DeviceInfo :=
  ⟨⟨"real_tag_007"⟩, "Real Tag", BluetoothDeviceType.Unknown "uuid_x", -60,
    [], none, false, some 0, none⟩

/-- A service state with one connected virtual device and one discovered
real device, virtual network enabled. -/
def sampleBtState : BluetoothServiceState :=
  ⟨some ⟨fun _ => "scan-1", fun _ _ => "req-1"⟩, false,
    [("virtual_collar_001", sampleCollarDevice)],
    [("virtual_collar_001", sampleCollarDevice), ("real_tag_007", sampleRealDevice)],
    true, [], []⟩

/-- C10 witness: on the sample state, disabling the virtual network removes
the virtual collar from both maps, keeps the real device, and clears the
flag. -/
theorem disableVirtualNetwork_removes_virtual_witness :
    sampleBtState.gameEngine.isSome = true ∧
    (∀ p ∈ sampleBtState.connectedDevices,
      (sampleBtState.discoveredDevices.map Prod.fst).contains p.1 = true) ∧
    (disableVirtualNetwork sampleBtState).discoveredDevices =
      [("real_tag_007", sampleRealDevice)] ∧
    (disableVirtualNetwork sampleBtState).connectedDevices = [] ∧
    (disableVirtualNetwork sampleBtState).virtualNetworkEnabled = false := by
  have h := disableVirtualNetwork_removes_virtual sampleBtState rfl (by decide)
  refine ⟨rfl, by decide, ?_, ?_, h.2.2⟩
  · rw [h.1]
    decide
  · rw [h.2.1]
    decide

/-! ## Capture Relay

From the training-page camera consumer (`handleFrame` / `drawFrame`): the
`pendingFrame` slot plus the `requestAnimationFrame` handle.  `CameraFrame`
is the `CameraService` record (its packed 3-channel buffer is a byte list).
The `pendingFrame` slot is an `Option`, so by construction it can never hold
more than one frame; the theorem below shows the slot's dynamics: sampling
overwrites whatever was pending, consuming clears it, and over any sequence
of steps the slot holds exactly the last sampled frame not yet consumed. -/

/-- `CameraFrame` (`data` is the packed pixel buffer). -/
structure CameraFrame where
  data : List Nat
  width : Nat
  height : Nat
  ts : Nat
deriving DecidableEq, Repr

/-- The relay's mutable state: `pendingFrame` and whether a draw callback is
scheduled (`drawHandle !== 0`). -/
structure RelayState where
  pendingFrame : Option CameraFrame
  drawHandle : Bool
deriving DecidableEq, Repr

/-- `handleFrame(frame)`: store the frame as pending (overwriting any
unconsumed one) and request a draw callback if none is scheduled. -/
def handleFrame (s : RelayState) (frame : CameraFrame) : RelayState :=
  { pendingFrame := some frame,
    drawHandle := if s.drawHandle = false then true else s.drawHandle }

/-- `drawFrame()`: clear the handle, take the pending frame (clearing the
slot) and return it for drawing (`none` means the callback returns without
drawing). -/
def drawFrame (s : RelayState) : RelayState × Option CameraFrame :=
  ({ pendingFrame := none, drawHandle := false }, s.pendingFrame)

/-- One interleaving step: a sampled frame arriving, or the draw callback
consuming. -/
inductive RelayOp where
  | sample (frame : CameraFrame)
  | consume
deriving DecidableEq, Repr

/-- Apply one step to the relay state. -/
def relayStep (s : RelayState) (op : RelayOp) : RelayState :=
  match op with
  | RelayOp.sample f => handleFrame s f
  | RelayOp.consume => (drawFrame s).1

/-- Run a sequence of sample/consume steps. -/
def runRelay (s : RelayState) (ops : List RelayOp) : RelayState :=
  ops.foldl relayStep s

/-- Spec-side back-pressure policy, written from the spec's words: the one
retained "latest frame" is the last sampled frame with no consume after it
(`none` if a consume came later or nothing was sampled). -/
def latestUnconsumed (init : Option CameraFrame) (ops : List RelayOp) :
    Option CameraFrame :=
  ops.foldl
    (fun _ op =>
      match op with
      | RelayOp.sample f => some f
      | RelayOp.consume => none)
    init

/-! ### Claim C9 -/

/-- C9: for every sequence of sample and consume steps the relay's pending
slot holds exactly the latest unconsumed frame — a new sample overwrites any
pending frame, consuming clears the slot and yields the pending frame — so
at most one frame is retained and no queue ever forms (the slot is a single
`Option`). -/
theorem relay_latest_frame_only (s : RelayState) (ops : List RelayOp) :
    (runRelay s ops).pendingFrame = latestUnconsumed s.pendingFrame ops ∧
    (∀ f, (handleFrame s f).pendingFrame = some f) ∧
    (drawFrame s).1.pendingFrame = none ∧
    (drawFrame s).2 = s.pendingFrame := by
  refine ⟨?_, fun f => rfl, rfl, rfl⟩
  induction ops generalizing s with
  | nil => rfl
  | cons op t ih =>
    cases op with
    | sample f =>
      have h := ih (handleFrame s f)
      simpa [runRelay, latestUnconsumed, relayStep, handleFrame] using h
    | consume =>
      have h := ih (drawFrame s).1
      simpa [runRelay, latestUnconsumed, relayStep, drawFrame] using h

/-- A concrete outcome function: the positive-folder mp3 candidate fails
with `NotAllowedError`, every other URL plays with duration 2. -/
def sampleOutcome : String → Except String ℚ :=
  fun url =>
    if url = "/assets/audio/positive/yipee.mp3" then Except.error "NotAllowedError"
    else Except.ok 2

/-- C2 witness: for `soundId = "yipee"`, `base = "/"`, under `sampleOutcome`
the first candidate fails, the second wins with duration 2, and nothing
after the second candidate is attempted. -/
theorem playAudioFile_first_success_wins_witness :
    (buildAudioCandidates "yipee" "/").dropWhile (failsOn sampleOutcome) =
      "/assets/audio/positive/yipee.ogg" ::
        ["/assets/audio/positive/yipee.mp3", "/assets/audio/positive/yipee.ogg",
         "https://interactive-examples.mdn.mozilla.net/media/cc0-audio/t-rex-roar.mp3"] ∧
    nativePlayAudioFile sampleOutcome "yipee" "/" = Except.ok 2 ∧
    attemptedCandidates sampleOutcome (buildAudioCandidates "yipee" "/") =
      ["/assets/audio/positive/yipee.mp3", "/assets/audio/positive/yipee.ogg"] := by
  have hdrop : (buildAudioCandidates "yipee" "/").dropWhile (failsOn sampleOutcome) =
      "/assets/audio/positive/yipee.ogg" ::
        ["/assets/audio/positive/yipee.mp3", "/assets/audio/positive/yipee.ogg",
         "https://interactive-examples.mdn.mozilla.net/media/cc0-audio/t-rex-roar.mp3"] := by
    decide
  have h := (playAudioFile_first_success_wins sampleOutcome "yipee" "/").2.2.2.1
    "/assets/audio/positive/yipee.ogg"
    ["/assets/audio/positive/yipee.mp3", "/assets/audio/positive/yipee.ogg",
     "https://interactive-examples.mdn.mozilla.net/media/cc0-audio/t-rex-roar.mp3"]
    hdrop
  refine ⟨hdrop, ?_, ?_⟩
  · rw [h.1]
    simp [sampleOutcome, durOf]
  · rw [h.2]
    decide
